import Mathlib

/-!
Verification of the Safe-T mini hardware-wallet plugin
(`electrum_dash/plugins/safe_t/safe_t.py`).

The development shallowly embeds the transaction-translation and
signing-session core of the plugin: `_make_node_path`, `_make_multisig`,
`tx_inputs`, `tx_outputs`, `electrum_tx_to_txtype`, `get_tx`,
`SafeTPlugin.sign_transaction` and `SafeTKeyStore.sign_transaction`.
Wallet data structures (`PartialTxInput`, `PartialTransaction`, ...) and the
helpers from `..hw_wallet.plugin`, the keystore lookup and the device client
live outside the translated file; they are modelled from the specification,
as documented on each definition.
-/

/-- Byte strings are lists of naturals (each intended to be < 256). -/
abbrev Bytes := List Nat

/-- Hex digit character for a value < 16 (lower case, as Python `hexlify`). -/
def hexDigit (n : Nat) : Char :=
  if n < 10 then Char.ofNat (48 + n) else Char.ofNat (87 + n)

/-- Embeds `bh2u` from `electrum_dash.util`: lower-case hex encoding of a
byte string (`hexlify(x).decode('ascii')`). -/
def bh2u (b : Bytes) : String :=
  String.mk (b.flatMap fun x => [hexDigit (x / 16 % 16), hexDigit (x % 16)])

/-- Python truthiness of an optional list (`if full_path:`):
`None` and the empty list are falsy. -/
def pyTruthyList (o : Option (List Nat)) : Bool :=
  match o with
  | none => false
  | some l => !l.isEmpty

/-- Python truthiness of an optional string (`if address:`):
`None` and the empty string are falsy. -/
def pyTruthyStr (o : Option String) : Bool :=
  match o with
  | none => false
  | some s => !s.isEmpty

/-- Device-side input script types (`safetlib.messages.InputScriptType`),
as selected by `get_safet_input_script_type`. -/
inductive InputScriptType where
  | SPENDADDRESS
  | SPENDMULTISIG
deriving DecidableEq, Repr

/-- Device-side output script types (`safetlib.messages.OutputScriptType`),
as selected by `get_safet_output_script_type` and `tx_outputs`. -/
inductive OutputScriptType where
  | PAYTOADDRESS
  | PAYTOMULTISIG
  | PAYTOOPRETURN
deriving DecidableEq, Repr

/-- Embeds `safetlib.messages.HDNodeType` as filled in by
`SafeTPlugin._make_node_path` (depth, fingerprint, child number, chain code
and compressed public key of a BIP32 node). -/
structure HDNodeType where
  depth : Nat
  fingerprint : Nat
  child_num : Nat
  chain_code : Bytes
  public_key : Bytes
deriving DecidableEq, Repr

/-- Embeds `safetlib.messages.HDNodePathType`: a BIP32 node together with a
derivation suffix. -/
structure HDNodePathType where
  node : HDNodeType
  address_n : List Nat
deriving DecidableEq, Repr

/-- Embeds `safetlib.messages.MultisigRedeemScriptType` as built by
`SafeTPlugin._make_multisig`: ordered co-signer nodes, one signature
placeholder per co-signer, and the threshold `m`. -/
structure MultisigRedeemScriptType where
  pubkeys : List HDNodePathType
  signatures : List Bytes
  m : Nat
deriving DecidableEq, Repr

/-- Embeds `safetlib.messages.TxInputType` with the fields `tx_inputs`
assigns. An unset protobuf field is `none` (respectively the empty list for
the repeated field `address_n`). -/
structure TxInputType where
  address_n : List Nat := []
  script_type : Option InputScriptType := none
  multisig : Option MultisigRedeemScriptType := none
  amount : Option Int := none
  prev_hash : Bytes := []
  prev_index : Nat := 0
  script_sig : Option Bytes := none
  sequence : Nat := 0
deriving DecidableEq, Repr

/-- Embeds `safetlib.messages.TxOutputType` with the fields `tx_outputs`
assigns. -/
structure TxOutputType where
  amount : Int := 0
  script_type : Option OutputScriptType := none
  address : Option String := none
  address_n : List Nat := []
  multisig : Option MultisigRedeemScriptType := none
  op_return_data : Option Bytes := none
deriving DecidableEq, Repr

/-- Embeds `safetlib.messages.TxBinOutputType` as filled by
`electrum_tx_to_txtype` (amount and raw scriptPubKey of a referenced
transaction's output). -/
structure TxBinOutputType where
  amount : Int
  script_pubkey : Bytes
deriving DecidableEq, Repr

/-- Embeds `safetlib.messages.TransactionType` as filled by
`electrum_tx_to_txtype`. -/
structure TransactionType where
  version : Option Nat := none
  lock_time : Option Nat := none
  inputs : List TxInputType := []
  bin_outputs : List TxBinOutputType := []
deriving DecidableEq, Repr

/-- Modelled from the spec: an Account Key, i.e. the decoded form of an
extended public key. `BIP32Node.from_xkey` (in `electrum_dash.bip32`,
outside the translated file) decodes the serialized xpub string into
exactly these fields, which `_make_node_path` then copies into an
`HDNodeType`; we represent an xpub directly by its decoded fields. -/
structure XPub where
  depth : Nat
  fingerprint : Nat
  child_num : Nat
  chaincode : Bytes
  public_key : Bytes
deriving DecidableEq, Repr

/-- Embeds `TxOutPoint` data: `txin.prevout.txid` (hash bytes) and
`txin.prevout.out_idx`. -/
structure TxPrevout where
  txid : Bytes
  out_idx : Nat
deriving DecidableEq, Repr

/-- Modelled from the spec: the wallet-side view of a transaction input
(`TxInput` / `PartialTxInput` from `electrum_dash.transaction`, outside the
translated file), restricted to the attributes `tx_inputs` reads.
`is_coinbase` is the result of `txin.is_coinbase_input()`, `value_sats` of
`txin.value_sats()`.  `xpubs_and_der_suffixes` records the result of
`get_xpubs_and_der_suffixes_from_txinout(tx, txin)` (from
`..hw_wallet.plugin`, outside the translated file): every co-signer's
Account Key paired with this input's derivation suffix.  `my_full_path`
records the path component of `keystore.find_my_pubkey_in_txinout(txin)`:
the signer's own full derivation path, if its public key is found among the
input's known public keys. -/
structure TxInput where
  prevout : TxPrevout
  is_coinbase : Bool
  value_sats : Option Int
  script_sig : Option Bytes
  nsequence : Nat
  pubkeys : List Bytes
  num_sig : Nat
  script_type : String
  xpubs_and_der_suffixes : List (XPub × List Nat)
  my_full_path : Option (List Nat)
deriving DecidableEq, Repr

/-- Modelled from the spec: the wallet-side view of a transaction output
(`TxOutput` / `PartialTxOutput`, outside the translated file), restricted to
the attributes `tx_outputs` and `electrum_tx_to_txtype` read.
`op_return_data` records the result of
`trezor_validate_op_return_output_and_get_data(txout)` (from
`..hw_wallet.plugin`, outside the translated file): `some payload` when the
output conforms to the recognized null-output script shape, `none` when the
validator fails with the invalid-output error.  `xpubs_and_der_suffixes` and
`my_full_path` are the same oracles as on `TxInput`. -/
structure TxOutput where
  value : Int
  address : Option String
  scriptpubkey : Bytes
  is_mine : Bool
  is_change : Bool
  script_type : String
  pubkeys : List Bytes
  num_sig : Nat
  xpubs_and_der_suffixes : List (XPub × List Nat)
  my_full_path : Option (List Nat)
  op_return_data : Option Bytes
deriving DecidableEq, Repr

/-- Modelled from the spec: a plain wallet `Transaction` (a referenced,
previously broadcast transaction), as consumed by `electrum_tx_to_txtype`. -/
structure Tx where
  inputs : List TxInput
  outputs : List TxOutput
  locktime : Nat
  version : Nat
deriving DecidableEq, Repr

/-- Modelled from the spec: a `PartialTxInput`, i.e. a `TxInput` that
additionally carries the previously broadcast transaction being spent
(`txin.utxo`). -/
structure PartialTxIn extends TxInput where
  utxo : Option Tx
deriving DecidableEq, Repr

/-- Modelled from the spec: a `PartialTransaction` being signed:
inputs with their utxo data, outputs, locktime, version, and the result of
`tx.is_complete()`. -/
structure PartialTx where
  inputs : List PartialTxIn
  outputs : List TxOutput
  locktime : Nat
  version : Nat
  is_complete : Bool
deriving DecidableEq, Repr

/-- Embeds `SafeTPlugin._make_node_path` (safe_t.py lines 247-256):
decodes the xpub (here: reads the decoded fields) into an `HDNodeType` and
pairs it with the derivation suffix. -/
def _make_node_path (xpub : XPub) (address_n : List Nat) : HDNodePathType :=
  { node := { depth := xpub.depth,
              fingerprint := xpub.fingerprint,
              child_num := xpub.child_num,
              chain_code := xpub.chaincode,
              public_key := xpub.public_key },
    address_n := address_n }

/-- Embeds `SafeTPlugin._make_multisig` (safe_t.py lines 373-380): `None`
for a single pair, otherwise a `MultisigRedeemScriptType` whose co-signers
are the pairs in their given order, with one empty signature placeholder
per co-signer and threshold `m`. -/
def _make_multisig (m : Nat) (xpubs : List (XPub × List Nat)) :
    Option MultisigRedeemScriptType :=
  if xpubs.length = 1 then
    none
  else
    let pubkeys := xpubs.map fun p => _make_node_path p.1 p.2
    some { pubkeys := pubkeys,
           signatures := List.replicate pubkeys.length [],
           m := m }

/-- Embeds `SafeTPlugin.get_safet_input_script_type` (safe_t.py lines
276-281); the `ValueError` is an `Except.error`. -/
def get_safet_input_script_type (electrum_txin_type : String) :
    Except String InputScriptType :=
  if electrum_txin_type = "p2pkh" then
    .ok .SPENDADDRESS
  else if electrum_txin_type = "p2sh" then
    .ok .SPENDMULTISIG
  else
    .error ("unexpected txin type: " ++ electrum_txin_type)

/-- Embeds `SafeTPlugin.get_safet_output_script_type` (safe_t.py lines
283-288); the `ValueError` is an `Except.error`. -/
def get_safet_output_script_type (electrum_txin_type : String) :
    Except String OutputScriptType :=
  if electrum_txin_type = "p2pkh" then
    .ok .PAYTOADDRESS
  else if electrum_txin_type = "p2sh" then
    .ok .PAYTOMULTISIG
  else
    .error ("unexpected txin type: " ++ electrum_txin_type)

/-- Embeds the tail of the `tx_inputs` loop body (safe_t.py lines 359-367):
starting from the `txinputtype` built so far, assign `amount` when
`txin.value_sats()` is not `None`, assign `prev_hash` and `prev_index`,
assign `script_sig` when present, and assign `sequence`. -/
def attach_common (txin : TxInput) (base : TxInputType) (prev_hash : Bytes)
    (prev_index : Nat) : TxInputType :=
  { base with
    amount := match txin.value_sats with
      | some v => some v
      | none => base.amount,
    prev_hash := prev_hash,
    prev_index := prev_index,
    script_sig := match txin.script_sig with
      | some s => some s
      | none => base.script_sig,
    sequence := txin.nsequence }

/-- Embeds one iteration of the `SafeTPlugin.tx_inputs` loop (safe_t.py
lines 333-369).  A coinbase input gets the sentinel previous output on a
default-constructed request.  Otherwise, when translating for active
signing (`for_sig=True`), the request is rebuilt with the script type, the
multisig descriptor (only when the input has more than one public key), and
the signer's full derivation path when the keystore lookup yields a truthy
one (`_extend_address_n`); in reference mode the request stays
default-constructed.  Both then receive the common fields. -/
def translate_txin (for_sig : Bool) (txin : TxInput) :
    Except String TxInputType :=
  if txin.is_coinbase then
    .ok (attach_common txin {} (List.replicate 32 0) 0xffffffff)
  else if for_sig then
    let multisig :=
      if txin.pubkeys.length > 1 then
        _make_multisig txin.num_sig txin.xpubs_and_der_suffixes
      else
        none
    match get_safet_input_script_type txin.script_type with
    | .error e => .error e
    | .ok script_type =>
      let base : TxInputType :=
        { script_type := some script_type, multisig := multisig }
      let base :=
        if pyTruthyList txin.my_full_path then
          { base with address_n := base.address_n ++ txin.my_full_path.getD [] }
        else
          base
      .ok (attach_common txin base txin.prevout.txid txin.prevout.out_idx)
  else
    .ok (attach_common txin {} txin.prevout.txid txin.prevout.out_idx)

/-- Embeds `SafeTPlugin.tx_inputs` (safe_t.py lines 331-371), iterating
`tx.inputs()` in order and appending one `TxInputType` per input. -/
def tx_inputs (for_sig : Bool) : List TxInput → Except String (List TxInputType)
  | [] => .ok []
  | txin :: rest =>
    match translate_txin for_sig txin with
    | .error e => .error e
    | .ok t =>
      match tx_inputs for_sig rest with
      | .error e => .error e
      | .ok ts => .ok (t :: ts)

/-- Modelled from the spec: `is_any_tx_output_on_change_branch` lives in
`..hw_wallet.plugin`, outside the translated file; per the spec, a
transaction is classified by whether any of its outputs use the
conventional internal/change keypath. -/
def is_any_tx_output_on_change_branch (tx : PartialTx) : Bool :=
  tx.outputs.any fun txout => txout.is_change

/-- Embeds `create_output_by_derivation` inside `SafeTPlugin.tx_outputs`
(safe_t.py lines 384-398): resolve the output script type (`ValueError` for
an unsupported one), build the multisig descriptor when the output has more
than one public key, and emit the request carrying the signer's full
derivation path; the Python `assert full_path` (truthiness) is an
`AssertionError` when the keystore lookup yields no truthy path. -/
def create_output_by_derivation (txout : TxOutput) :
    Except String TxOutputType :=
  match get_safet_output_script_type txout.script_type with
  | .error e => .error e
  | .ok script_type =>
    let multisig :=
      if txout.pubkeys.length > 1 then
        _make_multisig txout.num_sig txout.xpubs_and_der_suffixes
      else
        none
    if pyTruthyList txout.my_full_path then
      .ok { multisig := multisig,
            amount := txout.value,
            address_n := txout.my_full_path.getD [],
            script_type := some script_type }
    else
      .error "AssertionError"

/-- Embeds `create_output_by_address` inside `SafeTPlugin.tx_outputs`
(safe_t.py lines 400-409): with a truthy address, a `PAYTOADDRESS` request;
otherwise a `PAYTOOPRETURN` request whose payload is the validator's result,
the validator's failure (recorded as `op_return_data = none` on the output)
being the invalid-output error. -/
def create_output_by_address (txout : TxOutput) : Except String TxOutputType :=
  if pyTruthyStr txout.address then
    .ok { amount := txout.value,
          script_type := some .PAYTOADDRESS,
          address := txout.address }
  else
    match txout.op_return_data with
    | some d =>
      .ok { amount := txout.value,
            script_type := some .PAYTOOPRETURN,
            op_return_data := some d }
    | none => .error "InvalidOutputError"

/-- Embeds the loop of `SafeTPlugin.tx_outputs` (safe_t.py lines 411-434):
an output goes by derivation exactly when it is mine, no change output has
been emitted yet (`has_change`), and its change flag equals the overall
change-branch classification; `has_change` is set as soon as one such
output is chosen. -/
def tx_outputs_go (any_output_on_change_branch : Bool) :
    Bool → List TxOutput → Except String (List TxOutputType)
  | _, [] => .ok []
  | has_change, txout :: rest =>
    let use_create_by_derivation :=
      txout.is_mine && !has_change &&
        (txout.is_change == any_output_on_change_branch)
    match (if use_create_by_derivation then
             create_output_by_derivation txout
           else
             create_output_by_address txout) with
    | .error e => .error e
    | .ok o =>
      match tx_outputs_go any_output_on_change_branch
          (has_change || use_create_by_derivation) rest with
      | .error e => .error e
      | .ok os => .ok (o :: os)

/-- Embeds `SafeTPlugin.tx_outputs` (safe_t.py lines 382-434). -/
def tx_outputs (tx : PartialTx) : Except String (List TxOutputType) :=
  tx_outputs_go (is_any_tx_output_on_change_branch tx) false tx.outputs

/-- Embeds `SafeTPlugin.electrum_tx_to_txtype` (safe_t.py lines 436-450):
`None` yields an empty `TransactionType`; otherwise version, lock time,
reference-mode inputs (`for_sig=False`) and binary outputs are filled in. -/
def electrum_tx_to_txtype : Option Tx → Except String TransactionType
  | none => .ok {}
  | some tx =>
    match tx_inputs false tx.inputs with
    | .error e => .error e
    | .ok inputs =>
      .ok { version := some tx.version,
            lock_time := some tx.locktime,
            inputs := inputs,
            bin_outputs := tx.outputs.map fun o =>
              { amount := o.value, script_pubkey := o.scriptpubkey } }

/-- Embeds `SafeTPlugin.get_tx` (safe_t.py lines 452-455): look the hash up
in `self.prev_tx` (a missing key raising Python's `KeyError`) and translate
the cached transaction. -/
def get_tx (prev_tx : List (String × Tx)) (tx_hash : String) :
    Except String TransactionType :=
  match prev_tx.lookup tx_hash with
  | none => .error "KeyError"
  | some tx => electrum_tx_to_txtype (some tx)

/-- Modelled from the spec: the device-interaction loop of
`client.sign_tx` (in `client.py` of this plugin, outside the translated
file).  Per the spec the device issues zero or more referenced-transaction
requests by hash, each answered through `SafeTPlugin.get_tx`; a failing
answer aborts the whole session before any signatures are produced, and on
success the device's raw signatures are returned. -/
def signing_session (prev_tx : List (String × Tx)) :
    List String → List Bytes → Except String (List Bytes)
  | [], raw_signatures => .ok raw_signatures
  | h :: rest, raw_signatures =>
    match get_tx prev_tx h with
    | .error e => .error e
    | .ok _ => signing_session prev_tx rest raw_signatures

/-- Embeds `SafeTPlugin.sign_transaction` (safe_t.py lines 290-299).
`device_raw_signatures` is the device oracle: the raw signatures
`client.sign_tx` returns for the translated inputs and outputs
(modelled from the spec, `client.py` being outside the translated file);
`requests` are the referenced-transaction hashes the device asks for during
the session.  On success the returned list is what is passed to
`tx.update_signatures`: each raw signature hex-encoded with the `'01'`
sighash suffix appended. -/
def plugin_sign_transaction
    (device_raw_signatures : List TxInputType → List TxOutputType → List Bytes)
    (requests : List String) (prev_tx : List (String × Tx))
    (tx : PartialTx) : Except String (List String) :=
  match tx_inputs true (tx.inputs.map PartialTxIn.toTxInput) with
  | .error e => .error e
  | .ok inputs =>
    match tx_outputs tx with
    | .error e => .error e
    | .ok outputs =>
      match signing_session prev_tx requests
          (device_raw_signatures inputs outputs) with
      | .error e => .error e
      | .ok raw => .ok (raw.map fun x => bh2u x ++ "01")

/-- Embeds the `prev_tx` construction in `SafeTKeyStore.sign_transaction`
(safe_t.py lines 50-56): for each input in order, fail with the
user-facing exception when `txin.utxo` is `None`, otherwise bind
`prev_tx[txin.prevout.txid.hex()] = txin.utxo` (later bindings shadow
earlier ones, as for a Python dict). -/
def build_prev_tx (inputs : List PartialTxIn) :
    Except String (List (String × Tx)) :=
  inputs.foldlM
    (fun d txin =>
      match txin.utxo with
      | none => .error "Missing previous tx for legacy input."
      | some u => .ok ((bh2u txin.prevout.txid, u) :: d))
    []

/-- Embeds `SafeTKeyStore.sign_transaction` (safe_t.py lines 46-58)
composed with `SafeTPlugin.sign_transaction`: a complete transaction
returns immediately (`.ok none`: no map built, no device contacted, no
signatures applied); otherwise the previous-transaction map is built and
the plugin signs, `.ok (some sigs)` meaning `sigs` is handed to
`tx.update_signatures`. -/
def keystore_sign_transaction
    (device_raw_signatures : List TxInputType → List TxOutputType → List Bytes)
    (requests : List String) (tx : PartialTx) :
    Except String (Option (List String)) :=
  if tx.is_complete then
    .ok none
  else
    match build_prev_tx tx.inputs with
    | .error e => .error e
    | .ok prev_tx =>
      match plugin_sign_transaction device_raw_signatures requests prev_tx tx with
      | .error e => .error e
      | .ok sigs => .ok (some sigs)

/-- The active-signing-only fields of an input request: derivation path,
script type and multisig descriptor. Stripping them is the comparison used
for the active-signing/reference round trip. -/
def strip_sig_fields (t : TxInputType) : TxInputType :=
  { t with address_n := [], script_type := none, multisig := none }

/-- An output request is "emitted by derivation" when it carries a
derivation path (`address_n` nonempty) instead of an explicit address. -/
def sent_by_derivation (o : TxOutputType) : Bool :=
  !o.address_n.isEmpty

theorem attach_common_address_n (txin : TxInput) (b : TxInputType) (h : Bytes)
    (i : Nat) : (attach_common txin b h i).address_n = b.address_n := rfl

theorem attach_common_multisig (txin : TxInput) (b : TxInputType) (h : Bytes)
    (i : Nat) : (attach_common txin b h i).multisig = b.multisig := rfl

theorem attach_common_script_type (txin : TxInput) (b : TxInputType) (h : Bytes)
    (i : Nat) : (attach_common txin b h i).script_type = b.script_type := rfl

theorem attach_common_prev_hash (txin : TxInput) (b : TxInputType) (h : Bytes)
    (i : Nat) : (attach_common txin b h i).prev_hash = h := rfl

theorem attach_common_prev_index (txin : TxInput) (b : TxInputType) (h : Bytes)
    (i : Nat) : (attach_common txin b h i).prev_index = i := rfl

theorem strip_attach_common (txin : TxInput) (b : TxInputType) (h : Bytes)
    (i : Nat) :
    strip_sig_fields (attach_common txin b h i) =
      attach_common txin (strip_sig_fields b) h i := rfl

theorem translate_txin_ref_total (txin : TxInput) :
    ∃ t, translate_txin false txin = .ok t := by
  unfold translate_txin
  cases hc : txin.is_coinbase <;> simp

theorem tx_inputs_ref_total (ins : List TxInput) :
    ∃ l, tx_inputs false ins = .ok l := by
  induction ins with
  | nil => exact ⟨[], rfl⟩
  | cons txin rest ih =>
    obtain ⟨t, ht⟩ := translate_txin_ref_total txin
    obtain ⟨ts, hts⟩ := ih
    exact ⟨t :: ts, by unfold tx_inputs; rw [ht, hts]⟩

theorem tx_inputs_length (for_sig : Bool) :
    ∀ ins l, tx_inputs for_sig ins = .ok l → l.length = ins.length := by
  intro ins
  induction ins with
  | nil =>
    intro l h
    unfold tx_inputs at h
    cases h
    rfl
  | cons txin rest ih =>
    intro l h
    unfold tx_inputs at h
    cases ht : translate_txin for_sig txin with
    | error e => rw [ht] at h; cases h
    | ok t =>
      rw [ht] at h
      cases hr : tx_inputs for_sig rest with
      | error e => rw [hr] at h; cases h
      | ok ts =>
        rw [hr] at h
        cases h
        simp [ih ts hr]

theorem electrum_tx_to_txtype_total (o : Option Tx) :
    ∃ t, electrum_tx_to_txtype o = .ok t := by
  cases o with
  | none => exact ⟨{}, rfl⟩
  | some tx =>
    obtain ⟨l, hl⟩ := tx_inputs_ref_total tx.inputs
    exact ⟨_, by simp only [electrum_tx_to_txtype]; rw [hl]⟩

theorem get_tx_found (prev : List (String × Tx)) (h : String) (tx : Tx)
    (hl : prev.lookup h = some tx) : ∃ t, get_tx prev h = .ok t := by
  obtain ⟨t, ht⟩ := electrum_tx_to_txtype_total (some tx)
  exact ⟨t, by unfold get_tx; rw [hl]; exact ht⟩

theorem signing_session_ok (prev : List (String × Tx)) :
    ∀ reqs raw raw', signing_session prev reqs raw = .ok raw' → raw' = raw := by
  intro reqs
  induction reqs with
  | nil =>
    intro raw raw' h
    unfold signing_session at h
    cases h
    rfl
  | cons r rest ih =>
    intro raw raw' h
    unfold signing_session at h
    cases hg : get_tx prev r with
    | error e => rw [hg] at h; cases h
    | ok t => rw [hg] at h; exact ih raw raw' h

theorem signing_session_missing (prev : List (String × Tx)) :
    ∀ reqs raw h, h ∈ reqs → prev.lookup h = none →
      signing_session prev reqs raw = .error "KeyError" := by
  intro reqs
  induction reqs with
  | nil =>
    intro raw h hmem _
    cases hmem
  | cons r rest ih =>
    intro raw h hmem hmiss
    unfold signing_session
    cases hl : prev.lookup r with
    | none => unfold get_tx; rw [hl]
    | some tx =>
      obtain ⟨t, ht⟩ := get_tx_found prev r tx hl
      rw [ht]
      rcases List.mem_cons.mp hmem with heq | hmem'
      · subst heq
        rw [hl] at hmiss
        cases hmiss
      · exact ih raw h hmem' hmiss

theorem create_output_by_address_address_n (txout : TxOutput)
    (o : TxOutputType) (h : create_output_by_address txout = .ok o) :
    o.address_n = [] := by
  unfold create_output_by_address at h
  split at h
  · cases h; rfl
  · split at h
    · cases h; rfl
    · cases h

theorem create_output_by_derivation_ok (txout : TxOutput)
    (hpath : pyTruthyList txout.my_full_path = true)
    (hst : txout.script_type = "p2pkh" ∨ txout.script_type = "p2sh") :
    ∃ o, create_output_by_derivation txout = .ok o := by
  unfold create_output_by_derivation get_safet_output_script_type
  rcases hst with h | h <;> simp [h, hpath]

theorem tx_outputs_go_true_zero (any : Bool) :
    ∀ outs l, tx_outputs_go any true outs = .ok l →
      l.countP sent_by_derivation = 0 := by
  intro outs
  induction outs with
  | nil =>
    intro l h
    unfold tx_outputs_go at h
    cases h
    rfl
  | cons txout rest ih =>
    intro l h
    unfold tx_outputs_go at h
    simp only [Bool.not_true, Bool.and_false, Bool.false_and, Bool.and_self,
      Bool.or_false, Bool.or_true, if_false, Bool.false_eq_true,
      ite_false] at h
    cases ha : create_output_by_address txout with
    | error e => rw [ha] at h; cases h
    | ok o =>
      rw [ha] at h
      cases hr : tx_outputs_go any true rest with
      | error e => rw [hr] at h; cases h
      | ok os =>
        rw [hr] at h
        cases h
        have hoa := create_output_by_address_address_n txout o ha
        simp [List.countP_cons, sent_by_derivation, hoa, ih os hr]

theorem tx_outputs_go_false_le_one (any : Bool) :
    ∀ outs l, tx_outputs_go any false outs = .ok l →
      l.countP sent_by_derivation ≤ 1 := by
  intro outs
  induction outs with
  | nil =>
    intro l h
    unfold tx_outputs_go at h
    cases h
    exact Nat.zero_le 1
  | cons txout rest ih =>
    intro l h
    unfold tx_outputs_go at h
    simp only [Bool.not_false, Bool.and_true, Bool.false_or] at h
    cases hd : (txout.is_mine && (txout.is_change == any)) with
    | true =>
      rw [hd] at h
      simp only [if_true] at h
      cases hc : create_output_by_derivation txout with
      | error e => rw [hc] at h; cases h
      | ok o =>
        rw [hc] at h
        cases hr : tx_outputs_go any true rest with
        | error e => rw [hr] at h; cases h
        | ok os =>
          rw [hr] at h
          cases h
          have hz := tx_outputs_go_true_zero any rest os hr
          simp only [List.countP_cons, hz]
          split <;> simp
    | false =>
      rw [hd] at h
      simp only [if_false, Bool.false_eq_true, ite_false] at h
      cases hc : create_output_by_address txout with
      | error e => rw [hc] at h; cases h
      | ok o =>
        rw [hc] at h
        cases hr : tx_outputs_go any false rest with
        | error e => rw [hr] at h; cases h
        | ok os =>
          rw [hr] at h
          cases h
          have hoa := create_output_by_address_address_n txout o hc
          simp only [List.countP_cons, sent_by_derivation, hoa,
            List.isEmpty_nil, Bool.not_true, if_false]
          simpa using ih os hr

theorem tx_outputs_go_nomatch_zero (any : Bool) :
    ∀ outs hc l,
      (∀ o ∈ outs, o.is_mine = true → (o.is_change == any) = false) →
      tx_outputs_go any hc outs = .ok l →
      l.countP sent_by_derivation = 0 := by
  intro outs
  induction outs with
  | nil =>
    intro hc l _ h
    unfold tx_outputs_go at h
    cases h
    rfl
  | cons txout rest ih =>
    intro hc l hno h
    unfold tx_outputs_go at h
    have hd : (txout.is_mine && !hc && (txout.is_change == any)) = false := by
      cases hm : txout.is_mine with
      | false => simp
      | true => simp [hno txout (List.mem_cons_self txout rest) hm]
    rw [hd] at h
    simp only [Bool.false_eq_true, ite_false, Bool.or_false] at h
    cases ha : create_output_by_address txout with
    | error e => rw [ha] at h; cases h
    | ok o =>
      rw [ha] at h
      cases hr : tx_outputs_go any hc rest with
      | error e => rw [hr] at h; cases h
      | ok os =>
        rw [hr] at h
        cases h
        have hoa := create_output_by_address_address_n txout o ha
        have htail := ih hc os
          (fun o' ho' => hno o' (List.mem_cons_of_mem txout ho')) hr
        simp [List.countP_cons, sent_by_derivation, hoa, htail]

theorem tx_outputs_go_invalid (any : Bool) :
    ∀ outs hc,
      (∀ o ∈ outs, o.is_mine = true →
        pyTruthyList o.my_full_path = true ∧
          (o.script_type = "p2pkh" ∨ o.script_type = "p2sh")) →
      (∃ o ∈ outs, o.is_mine = false ∧ pyTruthyStr o.address = false ∧
        o.op_return_data = none) →
      tx_outputs_go any hc outs = .error "InvalidOutputError" := by
  intro outs
  induction outs with
  | nil =>
    intro hc _ hbad
    obtain ⟨o, ho, _⟩ := hbad
    cases ho
  | cons txout rest ih =>
    intro hc hwf hbad
    unfold tx_outputs_go
    cases hd : (txout.is_mine && !hc && (txout.is_change == any)) with
    | true =>
      have hm : txout.is_mine = true := by
        have h' := hd
        simp only [Bool.and_eq_true] at h'
        exact h'.1.1
      obtain ⟨hp, hst⟩ := hwf txout (List.mem_cons_self txout rest) hm
      obtain ⟨o, hok⟩ := create_output_by_derivation_ok txout hp hst
      have hbad' : ∃ o ∈ rest, o.is_mine = false ∧
          pyTruthyStr o.address = false ∧ o.op_return_data = none := by
        obtain ⟨o', ho', hmo, hrest⟩ := hbad
        rcases List.mem_cons.mp ho' with heq | hmem
        · subst heq; rw [hm] at hmo; cases hmo
        · exact ⟨o', hmem, hmo, hrest⟩
      have hgo := ih true
        (fun o' ho' => hwf o' (List.mem_cons_of_mem txout ho')) hbad'
      simp [hok, hgo]
    | false =>
      cases ha : pyTruthyStr txout.address with
      | true =>
        have hbad' : ∃ o ∈ rest, o.is_mine = false ∧
            pyTruthyStr o.address = false ∧ o.op_return_data = none := by
          obtain ⟨o', ho', hmo, hao, hro⟩ := hbad
          rcases List.mem_cons.mp ho' with heq | hmem
          · subst heq; rw [ha] at hao; cases hao
          · exact ⟨o', hmem, hmo, hao, hro⟩
        have hok : create_output_by_address txout =
            .ok { amount := txout.value,
                  script_type := some .PAYTOADDRESS,
                  address := txout.address } := by
          unfold create_output_by_address
          rw [ha]
          simp
        have hgo := ih hc
          (fun o' ho' => hwf o' (List.mem_cons_of_mem txout ho')) hbad'
        simp [hok, hgo]
      | false =>
        cases hor : txout.op_return_data with
        | none =>
          have herr : create_output_by_address txout =
              .error "InvalidOutputError" := by
            unfold create_output_by_address
            rw [ha, hor]
            simp
          simp [herr]
        | some d =>
          have hbad' : ∃ o ∈ rest, o.is_mine = false ∧
              pyTruthyStr o.address = false ∧ o.op_return_data = none := by
            obtain ⟨o', ho', hmo, hao, hro⟩ := hbad
            rcases List.mem_cons.mp ho' with heq | hmem
            · subst heq; rw [hor] at hro; cases hro
            · exact ⟨o', hmem, hmo, hao, hro⟩
          have hok : create_output_by_address txout =
              .ok { amount := txout.value,
                    script_type := some .PAYTOOPRETURN,
                    op_return_data := some d } := by
            unfold create_output_by_address
            rw [ha, hor]
            simp
          have hgo := ih hc
            (fun o' ho' => hwf o' (List.mem_cons_of_mem txout ho')) hbad'
          simp [hok, hgo]

theorem translate_txin_strip (txin : TxInput) (t : TxInputType)
    (h : translate_txin true txin = .ok t) :
    translate_txin false txin = .ok (strip_sig_fields t) := by
  unfold translate_txin at h ⊢
  cases hc : txin.is_coinbase with
  | true =>
    simp only [hc, if_true] at h ⊢
    cases h
    rfl
  | false =>
    simp only [hc, Bool.false_eq_true, ite_false, if_true] at h ⊢
    cases hs : get_safet_input_script_type txin.script_type with
    | error e => rw [hs] at h; cases h
    | ok st =>
      rw [hs] at h
      cases hp : pyTruthyList txin.my_full_path with
      | true =>
        rw [hp] at h
        simp only [if_true] at h
        cases h
        rfl
      | false =>
        rw [hp] at h
        simp only [Bool.false_eq_true, ite_false] at h
        cases h
        rfl

/-- A concrete first co-signer Account Key, used by concrete instances. -/
def xpubA : XPub :=
  { depth := 1, fingerprint := 0, child_num := 0,
    chaincode := List.replicate 32 0, public_key := [2, 1] }

/-- A concrete second co-signer Account Key with different public key
bytes. -/
def xpubB : XPub :=
  { depth := 1, fingerprint := 0, child_num := 0,
    chaincode := List.replicate 32 0, public_key := [2, 2] }

/-- The two co-signer pairs in one order. -/
def wPairsAB : List (XPub × List Nat) := [(xpubA, [0, 1]), (xpubB, [0, 2])]

/-- The same two co-signer pairs in the other order. -/
def wPairsBA : List (XPub × List Nat) := [(xpubB, [0, 2]), (xpubA, [0, 1])]

/-- C9: `_make_multisig m xpubs` returns `None` exactly when there is a
single co-signer pair; otherwise it returns a descriptor with one co-signer
slot per supplied pair, threshold field `m`, and every signature
placeholder the empty byte string. -/
theorem make_multisig_contract (m : Nat) (xpubs : List (XPub × List Nat)) :
    (_make_multisig m xpubs = none ↔ xpubs.length = 1) ∧
    (xpubs.length ≠ 1 →
      ∃ d, _make_multisig m xpubs = some d ∧
        d.pubkeys.length = xpubs.length ∧ d.m = m ∧
        d.signatures = List.replicate xpubs.length []) := by
  unfold _make_multisig
  by_cases h : xpubs.length = 1 <;> simp [h]

/-- Witness for C9 at the concrete two-co-signer collection. -/
theorem make_multisig_contract_witness :
    ∃ d, _make_multisig 2 wPairsAB = some d ∧
      d.pubkeys.length = wPairsAB.length ∧ d.m = 2 ∧
      d.signatures = List.replicate wPairsAB.length [] :=
  (make_multisig_contract 2 wPairsAB).2 (by decide)

/-- C1 counterexample: `_make_multisig` is not invariant under reordering
of its input pair list — two permutations of the same collection yield
different ordered co-signer sequences (no sorting happens inside
`_make_multisig`; callers sort before calling it, as in
`show_address`'s `sorted_pairs`). -/
theorem make_multisig_not_order_invariant :
    ¬ (Option.map MultisigRedeemScriptType.pubkeys
         (_make_multisig 2 wPairsAB) =
       Option.map MultisigRedeemScriptType.pubkeys
         (_make_multisig 2 wPairsBA)) := by
  decide

/-- C1 amended: `_make_multisig` is order-equivariant, not order-invariant:
it keeps the co-signers in exactly the input order, so two permutations of
the same pair collection yield descriptors whose co-signer sequences are
permutations of each other, with equal threshold and equal signature
placeholders; identical ordered descriptors across devices are obtained
because the callers sort the pairs by public key before calling. -/
theorem make_multisig_perm_equivariant (m : Nat)
    (l₁ l₂ : List (XPub × List Nat)) (hperm : l₁.Perm l₂)
    (hlen : l₁.length ≠ 1) :
    ∃ d₁ d₂, _make_multisig m l₁ = some d₁ ∧ _make_multisig m l₂ = some d₂ ∧
      d₁.pubkeys = l₁.map (fun p => _make_node_path p.1 p.2) ∧
      d₂.pubkeys = l₂.map (fun p => _make_node_path p.1 p.2) ∧
      d₁.pubkeys.Perm d₂.pubkeys ∧ d₁.m = d₂.m ∧
      d₁.signatures = d₂.signatures := by
  have hlen2 : l₂.length ≠ 1 := by rw [← hperm.length_eq]; exact hlen
  unfold _make_multisig
  rw [if_neg hlen, if_neg hlen2]
  exact ⟨_, _, rfl, rfl, rfl, rfl,
    hperm.map (fun p => _make_node_path p.1 p.2), rfl,
    by simp [hperm.length_eq]⟩

/-- Witness for the amended C1 at the two concrete orderings. -/
theorem make_multisig_perm_equivariant_witness :
    ∃ d₁ d₂, _make_multisig 2 wPairsAB = some d₁ ∧
      _make_multisig 2 wPairsBA = some d₂ ∧
      d₁.pubkeys = wPairsAB.map (fun p => _make_node_path p.1 p.2) ∧
      d₂.pubkeys = wPairsBA.map (fun p => _make_node_path p.1 p.2) ∧
      d₁.pubkeys.Perm d₂.pubkeys ∧ d₁.m = d₂.m ∧
      d₁.signatures = d₂.signatures :=
  make_multisig_perm_equivariant 2 wPairsAB wPairsBA (by decide) (by decide)

/-- A concrete non-coinbase owned input whose keystore lookup yields no
full derivation path. -/
def txinNoPath : TxInput :=
  { prevout := { txid := [170], out_idx := 0 },
    is_coinbase := false,
    value_sats := none,
    script_sig := none,
    nsequence := 0,
    pubkeys := [[2, 1]],
    num_sig := 1,
    script_type := "p2pkh",
    xpubs_and_der_suffixes := [],
    my_full_path := none }

/-- C3 counterexample: translating `txinNoPath` for active signing does not
fail — no `InternalInconsistencyError` (nor any error) is raised; the code
only guards the path attachment with `if full_path:` — and the produced
input request carries no derivation path. -/
theorem owned_input_no_path_no_error :
    translate_txin true txinNoPath =
      .ok { address_n := [],
            script_type := some InputScriptType.SPENDADDRESS,
            multisig := none,
            amount := none,
            prev_hash := [170],
            prev_index := 0,
            script_sig := none,
            sequence := 0 } := by
  rfl

/-- C3 amended: when translating an owned input for active signing and the
keystore lookup yields no truthy full path (and the input's script type is
supported), `tx_inputs` silently emits the input request without a
derivation path instead of failing; only `tx_outputs` asserts a path for
owned outputs. -/
theorem owned_input_no_path_emits_without_path (txin : TxInput)
    (st : InputScriptType)
    (hcb : txin.is_coinbase = false)
    (hp : pyTruthyList txin.my_full_path = false)
    (hst : get_safet_input_script_type txin.script_type = .ok st) :
    ∃ t, translate_txin true txin = .ok t ∧ t.address_n = [] := by
  unfold translate_txin
  simp only [hcb, Bool.false_eq_true, ite_false, if_true]
  rw [hst, hp]
  simp only [Bool.false_eq_true, ite_false]
  exact ⟨_, rfl, rfl⟩

/-- Witness for the amended C3 at the concrete pathless input. -/
theorem owned_input_no_path_emits_without_path_witness :
    ∃ t, translate_txin true txinNoPath = .ok t ∧ t.address_n = [] :=
  owned_input_no_path_emits_without_path txinNoPath
    InputScriptType.SPENDADDRESS rfl rfl rfl

/-- C4: for every transaction input marked coinbase, input translation in
both active-signing and reference mode emits the sentinel previous output —
previous hash of 32 zero bytes and previous index `0xffffffff` — with no
derivation path and no multisig descriptor attached. -/
theorem coinbase_input_sentinel (for_sig : Bool) (txin : TxInput)
    (h : txin.is_coinbase = true) :
    ∃ t, translate_txin for_sig txin = .ok t ∧
      t.prev_hash = List.replicate 32 0 ∧ t.prev_index = 0xffffffff ∧
      t.address_n = [] ∧ t.multisig = none := by
  refine ⟨attach_common txin {} (List.replicate 32 0) 0xffffffff,
    ?_, rfl, rfl, rfl, rfl⟩
  unfold translate_txin
  rw [h]
  simp

/-- A concrete coinbase input with a known amount and scriptSig. -/
def wCoinbaseIn : TxInput :=
  { prevout := { txid := List.replicate 32 7, out_idx := 3 },
    is_coinbase := true,
    value_sats := some 5000000000,
    script_sig := some [81, 82],
    nsequence := 4294967295,
    pubkeys := [],
    num_sig := 0,
    script_type := "p2pkh",
    xpubs_and_der_suffixes := [],
    my_full_path := none }

/-- Witness for C4 at the concrete coinbase input, in active-signing
mode. -/
theorem coinbase_input_sentinel_witness :
    ∃ t, translate_txin true wCoinbaseIn = .ok t ∧
      t.prev_hash = List.replicate 32 0 ∧ t.prev_index = 0xffffffff ∧
      t.address_n = [] ∧ t.multisig = none :=
  coinbase_input_sentinel true wCoinbaseIn rfl

/-- C5: translating inputs in active-signing mode and then stripping the
active-signing-only fields (derivation path, multisig descriptor, script
type) yields exactly the input requests produced in reference mode
(`for_sig=False`, the mode `electrum_tx_to_txtype` uses when answering a
device's previous-transaction request). -/
theorem tx_inputs_strip_roundtrip (ins : List TxInput) (l : List TxInputType)
    (h : tx_inputs true ins = .ok l) :
    tx_inputs false ins = .ok (l.map strip_sig_fields) := by
  induction ins generalizing l with
  | nil =>
    unfold tx_inputs at h ⊢
    cases h
    rfl
  | cons txin rest ih =>
    unfold tx_inputs at h ⊢
    cases ht : translate_txin true txin with
    | error e => rw [ht] at h; cases h
    | ok t =>
      rw [ht] at h
      cases hr : tx_inputs true rest with
      | error e => rw [hr] at h; cases h
      | ok ts =>
        rw [hr] at h
        cases h
        rw [translate_txin_strip txin t ht, ih ts hr]
        rfl

/-- The request produced for `wCoinbaseIn` in active-signing mode. -/
def wCoinbaseReq : TxInputType :=
  { amount := some 5000000000,
    prev_hash := List.replicate 32 0,
    prev_index := 4294967295,
    script_sig := some [81, 82],
    sequence := 4294967295 }

/-- Witness for C5 at a one-input transaction. -/
theorem tx_inputs_strip_roundtrip_witness :
    tx_inputs false [wCoinbaseIn] = .ok ([wCoinbaseReq].map strip_sig_fields) :=
  tx_inputs_strip_roundtrip [wCoinbaseIn] [wCoinbaseReq] (by rfl)

/-- C2: for every transaction handed to `tx_outputs`, at most one element
of the returned list is emitted by derivation (carrying a derivation path
instead of an explicit address); and if no wallet-owned output's change
flag equals the transaction's overall change-branch classification, zero
outputs are emitted by derivation. -/
theorem tx_outputs_at_most_one_by_derivation (tx : PartialTx)
    (l : List TxOutputType) (h : tx_outputs tx = .ok l) :
    l.countP sent_by_derivation ≤ 1 ∧
      ((∀ o ∈ tx.outputs, o.is_mine = true →
          (o.is_change == is_any_tx_output_on_change_branch tx) = false) →
        l.countP sent_by_derivation = 0) := by
  unfold tx_outputs at h
  exact ⟨tx_outputs_go_false_le_one _ _ _ h,
    fun hno => tx_outputs_go_nomatch_zero _ _ _ _ hno h⟩

/-- A concrete owned change output resolvable by derivation. -/
def wChangeOut : TxOutput :=
  { value := 3,
    address := some "DChangeAddr",
    scriptpubkey := [118],
    is_mine := true,
    is_change := true,
    script_type := "p2pkh",
    pubkeys := [[2, 5]],
    num_sig := 1,
    xpubs_and_der_suffixes := [],
    my_full_path := some [2147483692, 1, 2],
    op_return_data := none }

/-- A concrete external pay-to-address output. -/
def wExternalOut : TxOutput :=
  { value := 7,
    address := some "DExternalAddr",
    scriptpubkey := [118],
    is_mine := false,
    is_change := false,
    script_type := "p2pkh",
    pubkeys := [],
    num_sig := 0,
    xpubs_and_der_suffixes := [],
    my_full_path := none,
    op_return_data := none }

/-- A concrete transaction with one owned change output and one external
output. -/
def wTxC2 : PartialTx :=
  { inputs := [],
    outputs := [wChangeOut, wExternalOut],
    locktime := 0,
    version := 2,
    is_complete := false }

/-- The translated outputs of `wTxC2`. -/
def wOutsC2 : List TxOutputType :=
  [{ multisig := none, amount := 3, address_n := [2147483692, 1, 2],
     script_type := some .PAYTOADDRESS },
   { amount := 7, script_type := some .PAYTOADDRESS,
     address := some "DExternalAddr" }]

/-- Witness for C2 at the concrete transaction. -/
theorem tx_outputs_at_most_one_by_derivation_witness :
    wOutsC2.countP sent_by_derivation ≤ 1 ∧
      ((∀ o ∈ wTxC2.outputs, o.is_mine = true →
          (o.is_change == is_any_tx_output_on_change_branch wTxC2) = false) →
        wOutsC2.countP sent_by_derivation = 0) :=
  tx_outputs_at_most_one_by_derivation wTxC2 wOutsC2 (by rfl)

/-- C8: for every transaction containing a null (OP_RETURN) output whose
payload fails the recognized-shape validator (its ownable outputs being
well-formed: a truthy keystore path and a supported script type), output
translation fails with the invalid-output error and returns no translated
output list. -/
theorem tx_outputs_invalid_null_output_error (tx : PartialTx)
    (hwf : ∀ o ∈ tx.outputs, o.is_mine = true →
      pyTruthyList o.my_full_path = true ∧
        (o.script_type = "p2pkh" ∨ o.script_type = "p2sh"))
    (hbad : ∃ o ∈ tx.outputs, o.is_mine = false ∧
      pyTruthyStr o.address = false ∧ o.op_return_data = none) :
    tx_outputs tx = .error "InvalidOutputError" := by
  unfold tx_outputs
  exact tx_outputs_go_invalid _ _ _ hwf hbad

/-- A concrete malformed null output: no address and a payload the
validator rejects. -/
def wBadNullOut : TxOutput :=
  { value := 0,
    address := none,
    scriptpubkey := [106, 106],
    is_mine := false,
    is_change := false,
    script_type := "p2pkh",
    pubkeys := [],
    num_sig := 0,
    xpubs_and_der_suffixes := [],
    my_full_path := none,
    op_return_data := none }

/-- A concrete transaction whose first output is the malformed null output,
followed by an ordinary external output that is never reached. -/
def wTxC8 : PartialTx :=
  { inputs := [],
    outputs := [wBadNullOut, wExternalOut],
    locktime := 0,
    version := 2,
    is_complete := false }

/-- Witness for C8 at the concrete transaction. -/
theorem tx_outputs_invalid_null_output_error_witness :
    tx_outputs wTxC8 = .error "InvalidOutputError" :=
  tx_outputs_invalid_null_output_error wTxC8 (by decide)
    ⟨wBadNullOut, by decide, by decide⟩

/-- C6: when the device (which, per its contract, returns one raw signature
per input request, in input order) completes the session successfully, the
signature list applied to the wallet transaction has one entry per
transaction input, in input order, each being the raw signature hex-encoded
with the one-byte sighash suffix `'01'` appended. -/
theorem plugin_sign_one_sig_per_input_with_suffix
    (device_raw_signatures : List TxInputType → List TxOutputType → List Bytes)
    (requests : List String) (prev_tx : List (String × Tx)) (tx : PartialTx)
    (sigs : List String)
    (hdev : ∀ ins outs, (device_raw_signatures ins outs).length = ins.length)
    (h : plugin_sign_transaction device_raw_signatures requests prev_tx tx =
      .ok sigs) :
    sigs.length = tx.inputs.length ∧
      ∃ ins outs,
        tx_inputs true (tx.inputs.map PartialTxIn.toTxInput) = .ok ins ∧
        tx_outputs tx = .ok outs ∧
        sigs = (device_raw_signatures ins outs).map
          (fun x => bh2u x ++ "01") := by
  unfold plugin_sign_transaction at h
  cases hi : tx_inputs true (tx.inputs.map PartialTxIn.toTxInput) with
  | error e => rw [hi] at h; cases h
  | ok ins =>
    rw [hi] at h
    cases ho : tx_outputs tx with
    | error e => rw [ho] at h; cases h
    | ok outs =>
      rw [ho] at h
      dsimp only at h
      cases hs : signing_session prev_tx requests
          (device_raw_signatures ins outs) with
      | error e => rw [hs] at h; cases h
      | ok raw =>
        rw [hs] at h
        cases h
        have hraw := signing_session_ok prev_tx requests _ raw hs
        subst hraw
        refine ⟨?_, ins, outs, rfl, rfl, rfl⟩
        rw [List.length_map, hdev ins outs,
          tx_inputs_length true _ ins hi, List.length_map]

/-- A device oracle answering with one dummy raw signature per input. -/
def wDevSign : List TxInputType → List TxOutputType → List Bytes :=
  fun ins _ => List.replicate ins.length [1, 2]

/-- A concrete one-input transaction to sign. -/
def wTxC6 : PartialTx :=
  { inputs := [{ toTxInput := wCoinbaseIn, utxo := none }],
    outputs := [],
    locktime := 0,
    version := 2,
    is_complete := false }

/-- Witness for C6 at the concrete transaction and device oracle. -/
theorem plugin_sign_one_sig_per_input_with_suffix_witness :
    (["010201"] : List String).length = wTxC6.inputs.length ∧
      ∃ ins outs,
        tx_inputs true (wTxC6.inputs.map PartialTxIn.toTxInput) = .ok ins ∧
        tx_outputs wTxC6 = .ok outs ∧
        (["010201"] : List String) = (wDevSign ins outs).map
          (fun x => bh2u x ++ "01") :=
  plugin_sign_one_sig_per_input_with_suffix wDevSign [] [] wTxC6 ["010201"]
    (fun ins outs => List.length_replicate ins.length [1, 2]) (by rfl)

/-- C7: if, during a signing session on an incomplete transaction whose
translation succeeds, the device requests a referenced previous transaction
whose hash is not present in the pre-populated previous-transaction map,
the whole session aborts with the missing-previous-transaction failure
(the lookup `self.prev_tx[tx_hash]` raising Python's `KeyError`), so no
signatures are applied to the transaction. -/
theorem keystore_sign_missing_prev_aborts
    (device_raw_signatures : List TxInputType → List TxOutputType → List Bytes)
    (requests : List String) (tx : PartialTx) (d : List (String × Tx))
    (ins : List TxInputType) (outs : List TxOutputType) (h : String)
    (hc : tx.is_complete = false)
    (hd : build_prev_tx tx.inputs = .ok d)
    (hmem : h ∈ requests) (hmiss : d.lookup h = none)
    (hins : tx_inputs true (tx.inputs.map PartialTxIn.toTxInput) = .ok ins)
    (houts : tx_outputs tx = .ok outs) :
    keystore_sign_transaction device_raw_signatures requests tx =
      .error "KeyError" := by
  unfold keystore_sign_transaction
  rw [hc]
  simp only [Bool.false_eq_true, ite_false]
  rw [hd]
  unfold plugin_sign_transaction
  rw [hins]
  dsimp only
  rw [houts]
  dsimp only
  rw [signing_session_missing d requests _ h hmem hmiss]

/-- A concrete previously broadcast transaction. -/
def wPrevTx : Tx :=
  { inputs := [], outputs := [], locktime := 0, version := 1 }

/-- A concrete input spending `wPrevTx` (its previous hash `[170]` maps to
the key `"aa"` of the previous-transaction map). -/
def wIn7 : TxInput :=
  { prevout := { txid := [170], out_idx := 0 },
    is_coinbase := true,
    value_sats := none,
    script_sig := none,
    nsequence := 0,
    pubkeys := [],
    num_sig := 0,
    script_type := "p2pkh",
    xpubs_and_der_suffixes := [],
    my_full_path := none }

/-- The concrete transaction for the missing-previous-transaction
scenario. -/
def wTxC7 : PartialTx :=
  { inputs := [{ toTxInput := wIn7, utxo := some wPrevTx }],
    outputs := [],
    locktime := 0,
    version := 2,
    is_complete := false }

/-- Witness for C7: with the device requesting the unknown hash `"ff"`,
the concrete session aborts. -/
theorem keystore_sign_missing_prev_aborts_witness :
    keystore_sign_transaction (fun _ _ => []) ["ff"] wTxC7 =
      .error "KeyError" :=
  keystore_sign_missing_prev_aborts (fun _ _ => []) ["ff"] wTxC7
    [("aa", wPrevTx)]
    [{ prev_hash := List.replicate 32 0, prev_index := 4294967295,
       sequence := 0 }]
    [] "ff" rfl (by rfl) (List.mem_singleton.mpr rfl) (by rfl) (by rfl)
    (by rfl)

/-- C10: for every transaction that is already complete, the keystore's
`sign_transaction` returns immediately: no previous-transaction map is
built, the device oracle is never consulted (the result is the same for
every oracle and request sequence), and no signatures are applied
(`.ok none`: the transaction object is left unchanged). -/
theorem keystore_sign_complete_noop
    (device_raw_signatures : List TxInputType → List TxOutputType → List Bytes)
    (requests : List String) (tx : PartialTx)
    (h : tx.is_complete = true) :
    keystore_sign_transaction device_raw_signatures requests tx = .ok none := by
  unfold keystore_sign_transaction
  rw [h]
  simp

/-- A concrete already-complete transaction (whose single input even lacks
its utxo, so building the map would fail if it were attempted). -/
def wTxC10 : PartialTx :=
  { inputs := [{ toTxInput := wCoinbaseIn, utxo := none }],
    outputs := [wExternalOut],
    locktime := 0,
    version := 2,
    is_complete := true }

/-- Witness for C10 at the concrete complete transaction. -/
theorem keystore_sign_complete_noop_witness :
    keystore_sign_transaction (fun _ _ => [[9]]) ["zz"] wTxC10 = .ok none :=
  keystore_sign_complete_noop (fun _ _ => [[9]]) ["zz"] wTxC10 rfl
